import Mathlib

/-!
Shallow embedding of the CERT coordination-observability core:
the Coordination Engine (`cert/core/coordination_effects.py`), the
Consistency Engine (`cert/core/behavioral_analysis.py`) and the API
boundary (`cert/api/server.py`), together with theorems about them.

Numeric conventions: the Python source computes with IEEE floats; the
embedding uses exact arithmetic (ℚ for the coordination engine, ℝ for
the consistency engine, whose statistics involve square roots).
The `np.datetime64('now')` wall-clock read that the source stores in the
`timestamp` field of each result is modelled as an explicit `now : String`
argument: it is the one input of the computation that does not appear in
the function's parameter list in the source.
-/

/-- Result dictionary built by `CoordinationAnalyzer.calculate_coordination_effect`
(`coordination_effects.py`, lines 49-59), one field per dictionary key. -/
structure CoordinationResult where
  agent_a_baseline : ℚ
  agent_b_baseline : ℚ
  expected_performance : ℚ
  observed_performance : ℚ
  coordination_effect : ℚ
  impact_classification : String
  interaction_pattern : String
  performance_change_percent : ℚ
  timestamp : String
  deriving Repr, DecidableEq

deriving instance DecidableEq for Except

/-- Embedding of `CoordinationAnalyzer.calculate_coordination_effect`
(`coordination_effects.py`, lines 16-59): expected performance is the
product of the baselines; a zero product returns the error dictionary;
otherwise gamma is observed over expected, classified by the fixed
threshold chain `> 1.2`, `> 1.0`, `> 0.8`, else. -/
def calculate_coordination_effect (agent_a_baseline agent_b_baseline
    coordinated_performance : ℚ) (interaction_pattern : String)
    (now : String) : Except String CoordinationResult :=
  let expected_performance := agent_a_baseline * agent_b_baseline
  if expected_performance = 0 then
    Except.error "Cannot calculate coordination effect with zero baseline"
  else
    let gamma := coordinated_performance / expected_performance
    let impact :=
      if gamma > 1.2 then "highly_beneficial"
      else if gamma > 1.0 then "beneficial"
      else if gamma > 0.8 then "degraded"
      else "severely_degraded"
    Except.ok
      { agent_a_baseline := agent_a_baseline
        agent_b_baseline := agent_b_baseline
        expected_performance := expected_performance
        observed_performance := coordinated_performance
        coordination_effect := gamma
        impact_classification := impact
        interaction_pattern := interaction_pattern
        performance_change_percent := (gamma - 1) * 100
        timestamp := now }

/-- Every field of a `CoordinationResult` except the wall-clock `timestamp`. -/
def CoordinationResult.core (r : CoordinationResult) :
    ℚ × ℚ × ℚ × ℚ × ℚ × String × String × ℚ :=
  (r.agent_a_baseline, r.agent_b_baseline, r.expected_performance,
   r.observed_performance, r.coordination_effect, r.impact_classification,
   r.interaction_pattern, r.performance_change_percent)

/-- Dot product of two embedding vectors, truncating to the shorter one;
embedding vectors of one measurement share a dimension by the provider
contract, so the truncation is never exercised there. -/
def dot (u v : List ℝ) : ℝ := (List.zipWith (fun x y => x * y) u v).sum

/-- Euclidean norm of an embedding vector. -/
noncomputable def vnorm (u : List ℝ) : ℝ := Real.sqrt (dot u u)

/-- Cosine distance `1 - u·v / (‖u‖·‖v‖)` as used by
`scipy.spatial.distance.cosine` at line 37 of `behavioral_analysis.py`. -/
noncomputable def cosine (u v : List ℝ) : ℝ := 1 - dot u v / (vnorm u * vnorm v)

/-- The double loop of `behavioral_analysis.py` lines 34-38: for each `i`,
pair `embeddings[i]` with every later `embeddings[j]` and record the cosine
distance, in loop order. -/
noncomputable def pairwise_distances : List (List ℝ) → List ℝ
  | [] => []
  | e :: rest => rest.map (cosine e) ++ pairwise_distances rest

/-- Arithmetic mean, as `np.mean` on a nonempty list (line 41). -/
noncomputable def npMean (l : List ℝ) : ℝ := l.sum / l.length

/-- Population standard deviation, as `np.std` on a nonempty list (line 42):
the square root of the mean squared deviation from the mean. -/
noncomputable def npStd (l : List ℝ) : ℝ :=
  Real.sqrt ((l.map (fun x => (x - npMean l) ^ 2)).sum / l.length)

/-- Result dictionary built by `BehavioralAnalyzer.measure_consistency`
(`behavioral_analysis.py`, lines 50-58), one field per dictionary key. -/
structure ConsistencyResult where
  agent_id : String
  prompt : String
  consistency_score : ℝ
  mean_semantic_distance : ℝ
  std_semantic_distance : ℝ
  num_responses : ℕ
  timestamp : String

/-- Every field of a `ConsistencyResult` except the wall-clock `timestamp`. -/
def ConsistencyResult.core (r : ConsistencyResult) :
    String × String × ℝ × ℝ × ℝ × ℕ :=
  (r.agent_id, r.prompt, r.consistency_score, r.mean_semantic_distance,
   r.std_semantic_distance, r.num_responses)

/-- Embedding of `BehavioralAnalyzer.measure_consistency`
(`behavioral_analysis.py`, lines 19-58). The sentence-transformer model is
the Embedding Provider of the design, passed as the function
`embed : String → List ℝ`; `self.model.encode(responses)` maps it over the
responses in order. Fewer than 2 responses return the error dictionary
before any embedding happens. -/
noncomputable def measure_consistency (embed : String → List ℝ)
    (agent_id prompt : String) (responses : List String) (now : String) :
    Except String ConsistencyResult :=
  if responses.length < 2 then
    Except.error "Need at least 2 responses for consistency measurement"
  else
    let embeddings := responses.map embed
    let distances := pairwise_distances embeddings
    let mean_distance := npMean distances
    let std_distance := npStd distances
    let consistency_score :=
      if mean_distance = 0 then 1.0
      else max 0 (1 - std_distance / mean_distance)
    Except.ok
      { agent_id := agent_id
        prompt := prompt
        consistency_score := consistency_score
        mean_semantic_distance := mean_distance
        std_semantic_distance := std_distance
        num_responses := responses.length
        timestamp := now }

/-- Deterministic stand-in Embedding Provider used to instantiate theorems
on concrete inputs (the design in §9 of the spec calls for exactly such a
fake provider for testing): every text embeds to the unit vector `[1]`. -/
noncomputable def unitEmbed (_ : String) : List ℝ := [1]

/-- Wire form of a `POST /measure/coordination` body: each field of the
pydantic model `CoordinationRequest` (`server.py`, lines 22-28) is present
or absent in the incoming JSON object. -/
structure CoordinationRequestBody where
  agent_a_id : Option String
  agent_b_id : Option String
  agent_a_baseline : Option ℚ
  agent_b_baseline : Option ℚ
  coordinated_performance : Option ℚ
  interaction_pattern : Option String
  deriving Repr, DecidableEq

/-- The pydantic model `CoordinationRequest` (`server.py`, lines 22-28):
six fields, all declared without defaults, hence all required. -/
structure CoordinationRequest where
  agent_a_id : String
  agent_b_id : String
  agent_a_baseline : ℚ
  agent_b_baseline : ℚ
  coordinated_performance : ℚ
  interaction_pattern : String
  deriving Repr, DecidableEq

/-- Request validation performed by pydantic for the model at lines 22-28 of
`server.py`: a field without a default is required, so the body parses only
when all six fields are present. -/
def validate_coordination_request (b : CoordinationRequestBody) :
    Option CoordinationRequest :=
  match b.agent_a_id, b.agent_b_id, b.agent_a_baseline, b.agent_b_baseline,
      b.coordinated_performance, b.interaction_pattern with
  | some aid, some bid, some ab, some bb, some cp, some ip =>
      some ⟨aid, bid, ab, bb, cp, ip⟩
  | _, _, _, _, _, _ => none

/-- Responses the coordination route can produce: `200` with a result body,
`400` from the explicit `HTTPException` at line 55 of `server.py`, or `422`
when FastAPI rejects the body against the pydantic model before the handler
runs. -/
inductive HttpResponse (α : Type) where
  | ok (body : α)
  | badRequest (error : String)
  | unprocessable
  deriving Repr, DecidableEq

/-- HTTP status code of each response shape. -/
def HttpResponse.status {α : Type} : HttpResponse α → ℕ
  | .ok _ => 200
  | .badRequest _ => 400
  | .unprocessable => 422

/-- Embedding of the `POST /measure/coordination` route
(`server.py`, lines 44-57): validate the body against the pydantic model,
call the engine, turn an engine error into a `400` and a result into a
`200`. -/
def measure_coordination_endpoint (b : CoordinationRequestBody)
    (now : String) : HttpResponse CoordinationResult :=
  match validate_coordination_request b with
  | none => HttpResponse.unprocessable
  | some req =>
      match calculate_coordination_effect req.agent_a_baseline
          req.agent_b_baseline req.coordinated_performance
          req.interaction_pattern now with
      | Except.error e => HttpResponse.badRequest e
      | Except.ok r => HttpResponse.ok r

/-- A request body carrying exactly the four fields that §6 of the spec
lists for `POST /measure/coordination`, and no agent ids. -/
def fourFieldBody : CoordinationRequestBody :=
  { agent_a_id := none
    agent_b_id := none
    agent_a_baseline := some 0.85
    agent_b_baseline := some 0.8
    coordinated_performance := some 0.88
    interaction_pattern := some "debate" }

/-- With a nonzero expected performance the engine always succeeds, and the
result record is exactly the dictionary built at lines 49-59 of the source. -/
lemma calculate_coordination_effect_ok (a b o : ℚ) (p t : String)
    (h : a * b ≠ 0) :
    calculate_coordination_effect a b o p t = Except.ok
      { agent_a_baseline := a
        agent_b_baseline := b
        expected_performance := a * b
        observed_performance := o
        coordination_effect := o / (a * b)
        impact_classification :=
          if 1.2 < o / (a * b) then "highly_beneficial"
          else if 1.0 < o / (a * b) then "beneficial"
          else if 0.8 < o / (a * b) then "degraded"
          else "severely_degraded"
        interaction_pattern := p
        performance_change_percent := (o / (a * b) - 1) * 100
        timestamp := t } := by
  simp [calculate_coordination_effect, h]

/-- C1: with nonzero expected performance the impact classification follows
the fixed threshold table: gamma above 1.2 is highly_beneficial, gamma in
(1, 1.2] is beneficial, gamma in (0.8, 1] is degraded, gamma at most 0.8 is
severely_degraded; gamma equal to 1.2 is therefore beneficial, and for
baselines 0.85 and 0.80 with observed 0.88 the ratio 22/17 exceeds 1.2, so
the classification is highly_beneficial. -/
theorem coordination_impact_thresholds :
    (∀ a b o : ℚ, ∀ p t : String, a * b ≠ 0 →
      ∃ r, calculate_coordination_effect a b o p t = Except.ok r ∧
        r.coordination_effect = o / (a * b) ∧
        (1.2 < o / (a * b) → r.impact_classification = "highly_beneficial") ∧
        (1 < o / (a * b) ∧ o / (a * b) ≤ 1.2 →
          r.impact_classification = "beneficial") ∧
        (0.8 < o / (a * b) ∧ o / (a * b) ≤ 1 →
          r.impact_classification = "degraded") ∧
        (o / (a * b) ≤ 0.8 → r.impact_classification = "severely_degraded")) ∧
    (∀ p t : String,
      ∃ r, calculate_coordination_effect 1 1 1.2 p t = Except.ok r ∧
        r.coordination_effect = 1.2 ∧ r.impact_classification = "beneficial") ∧
    (∀ p t : String,
      ∃ r, calculate_coordination_effect 0.85 0.8 0.88 p t = Except.ok r ∧
        r.coordination_effect = 22 / 17 ∧ (1.2 : ℚ) < 22 / 17 ∧
        r.impact_classification = "highly_beneficial") := by
  refine ⟨?_, ?_, ?_⟩
  · intro a b o p t h
    refine ⟨_, calculate_coordination_effect_ok a b o p t h, rfl, ?_, ?_, ?_, ?_⟩ <;>
      intro hg <;> dsimp only
    · rw [if_pos hg]
    · rw [if_neg (by linarith [hg.2]), if_pos (show (1.0 : ℚ) < o / (a * b) by
        norm_num; linarith [hg.1])]
    · rw [if_neg (by norm_num; linarith [hg.2]),
        if_neg (by norm_num; linarith [hg.2]),
        if_pos (show (0.8 : ℚ) < o / (a * b) from hg.1)]
    · rw [if_neg (by norm_num; linarith), if_neg (by norm_num; linarith),
        if_neg (by norm_num; linarith)]
  · intro p t
    refine ⟨_, calculate_coordination_effect_ok 1 1 1.2 p t (by norm_num), ?_, ?_⟩ <;>
      norm_num
  · intro p t
    refine ⟨_, calculate_coordination_effect_ok 0.85 0.8 0.88 p t (by norm_num),
      ?_, ?_, ?_⟩ <;> norm_num

/-- Instantiation of `coordination_impact_thresholds` on the concrete input
baselines 2 and 1, observed 3 (gamma 3/2). -/
theorem coordination_impact_thresholds_witness :
    ∃ r, calculate_coordination_effect 2 1 3 "chain" "t0" = Except.ok r ∧
      r.coordination_effect = 3 / (2 * 1) ∧
      ((1.2 : ℚ) < 3 / (2 * 1) →
        r.impact_classification = "highly_beneficial") ∧
      ((1 : ℚ) < 3 / (2 * 1) ∧ (3 / (2 * 1) : ℚ) ≤ 1.2 →
        r.impact_classification = "beneficial") ∧
      ((0.8 : ℚ) < 3 / (2 * 1) ∧ (3 / (2 * 1) : ℚ) ≤ 1 →
        r.impact_classification = "degraded") ∧
      ((3 / (2 * 1) : ℚ) ≤ 0.8 →
        r.impact_classification = "severely_degraded") :=
  coordination_impact_thresholds.1 2 1 3 "chain" "t0" (by norm_num)

/-- C2 counterexample: at baseline 0 the engine does return a zero-baseline
error, but its message is capitalized "Cannot calculate coordination effect
with zero baseline", not the lowercase message the claim quotes. -/
theorem coordination_zero_baseline_message_cex :
    calculate_coordination_effect 0 1 0.5 "independent" "t0" =
      Except.error "Cannot calculate coordination effect with zero baseline" ∧
    calculate_coordination_effect 0 1 0.5 "independent" "t0" ≠
      Except.error "cannot calculate coordination effect with zero baseline" := by
  constructor <;> simp [calculate_coordination_effect]

/-- C2 (amended): the engine returns the zero-baseline error, with message
"Cannot calculate coordination effect with zero baseline", and produces no
CoordinationResult if and only if the product of the baselines is 0 —
equivalently, over exact arithmetic, iff one baseline is 0 — and in that
case the outcome does not depend on the observed performance or the
interaction pattern (no further computation). -/
theorem coordination_zero_baseline (a b o : ℚ) (p t : String) :
    (calculate_coordination_effect a b o p t =
        Except.error "Cannot calculate coordination effect with zero baseline"
      ↔ a * b = 0) ∧
    (a * b = 0 ↔ a = 0 ∨ b = 0) ∧
    (a * b = 0 → ∀ o2 : ℚ, ∀ p2 : String,
      calculate_coordination_effect a b o p t =
        calculate_coordination_effect a b o2 p2 t) ∧
    (a * b = 0 → ∀ r, calculate_coordination_effect a b o p t ≠ Except.ok r) := by
  by_cases h : a * b = 0
  · simp only [calculate_coordination_effect, h]
    simp [mul_eq_zero.mp h, mul_eq_zero]
  · simp [calculate_coordination_effect, h, mul_ne_zero_iff.mp h]

/-- Instantiation of `coordination_zero_baseline` at baseline_a = 0. -/
theorem coordination_zero_baseline_witness :
    calculate_coordination_effect 0 1 0.5 "independent" "t0" =
      Except.error "Cannot calculate coordination effect with zero baseline" ∧
    calculate_coordination_effect 0 1 0.5 "independent" "t0" =
      calculate_coordination_effect 0 1 0.7 "chain" "t0" :=
  ⟨(coordination_zero_baseline 0 1 0.5 "independent" "t0").1.mpr (by norm_num),
   (coordination_zero_baseline 0 1 0.5 "independent" "t0").2.2.1 (by norm_num)
     0.7 "chain"⟩

/-- C6: with a nonzero baseline product the successful result satisfies the
three defining formulas: expected is the product of the baselines, gamma is
observed over expected, and the percent change is (gamma - 1) * 100. -/
theorem coordination_result_formulas (a b o : ℚ) (p t : String)
    (h : a * b ≠ 0) :
    ∃ r, calculate_coordination_effect a b o p t = Except.ok r ∧
      r.expected_performance = a * b ∧
      r.observed_performance = o ∧
      r.coordination_effect = r.observed_performance / r.expected_performance ∧
      r.performance_change_percent = (r.coordination_effect - 1) * 100 :=
  ⟨_, calculate_coordination_effect_ok a b o p t h, rfl, rfl, rfl, rfl⟩

/-- Instantiation of `coordination_result_formulas` on baselines 0.85 and
0.80 with observed 0.88. -/
theorem coordination_result_formulas_witness :
    ∃ r, calculate_coordination_effect 0.85 0.8 0.88 "debate" "t0" =
        Except.ok r ∧
      r.expected_performance = 0.85 * 0.8 ∧
      r.observed_performance = 0.88 ∧
      r.coordination_effect = r.observed_performance / r.expected_performance ∧
      r.performance_change_percent = (r.coordination_effect - 1) * 100 :=
  coordination_result_formulas 0.85 0.8 0.88 "debate" "t0" (by norm_num)

/-- C10: the interaction_pattern label never influences the computation:
two calls differing only in it agree on every computed field (and on the
fields copied from the other inputs, and on the timestamp when the clock
reads equal); the stored interaction_pattern is the only input-dependent
field that differs. -/
theorem interaction_pattern_noninfluence (a b o : ℚ) (p1 p2 t : String)
    (h : a * b ≠ 0) :
    ∃ r1 r2,
      calculate_coordination_effect a b o p1 t = Except.ok r1 ∧
      calculate_coordination_effect a b o p2 t = Except.ok r2 ∧
      r1.expected_performance = r2.expected_performance ∧
      r1.coordination_effect = r2.coordination_effect ∧
      r1.impact_classification = r2.impact_classification ∧
      r1.performance_change_percent = r2.performance_change_percent ∧
      r1.agent_a_baseline = r2.agent_a_baseline ∧
      r1.agent_b_baseline = r2.agent_b_baseline ∧
      r1.observed_performance = r2.observed_performance ∧
      r1.timestamp = r2.timestamp ∧
      r1.interaction_pattern = p1 ∧ r2.interaction_pattern = p2 :=
  ⟨_, _, calculate_coordination_effect_ok a b o p1 t h,
    calculate_coordination_effect_ok a b o p2 t h,
    rfl, rfl, rfl, rfl, rfl, rfl, rfl, rfl, rfl, rfl⟩

/-- Instantiation of `interaction_pattern_noninfluence` on two calls that
differ only in the interaction pattern, "debate" versus "solo". -/
theorem interaction_pattern_noninfluence_witness :
    ∃ r1 r2,
      calculate_coordination_effect 0.85 0.8 0.88 "debate" "t0" =
        Except.ok r1 ∧
      calculate_coordination_effect 0.85 0.8 0.88 "solo" "t0" =
        Except.ok r2 ∧
      r1.expected_performance = r2.expected_performance ∧
      r1.coordination_effect = r2.coordination_effect ∧
      r1.impact_classification = r2.impact_classification ∧
      r1.performance_change_percent = r2.performance_change_percent ∧
      r1.agent_a_baseline = r2.agent_a_baseline ∧
      r1.agent_b_baseline = r2.agent_b_baseline ∧
      r1.observed_performance = r2.observed_performance ∧
      r1.timestamp = r2.timestamp ∧
      r1.interaction_pattern = "debate" ∧ r2.interaction_pattern = "solo" :=
  interaction_pattern_noninfluence 0.85 0.8 0.88 "debate" "solo" "t0"
    (by norm_num)

/-- C9 counterexample: the source stores a wall-clock reading in the
timestamp field of every result, so two invocations with identical
arguments made at different clock readings are not identical in every
field. -/
theorem engine_call_timestamp_cex :
    calculate_coordination_effect 1 1 1 "independent" "2025-01-01" ≠
      calculate_coordination_effect 1 1 1 "independent" "2025-01-02" := by
  simp [calculate_coordination_effect]

lemma dot_eq_sum (u v : List ℝ) :
    dot u v = ∑ i ∈ Finset.range (min u.length v.length),
      u.getD i 0 * v.getD i 0 := by
  induction u generalizing v with
  | nil => simp [dot]
  | cons a u ih =>
      cases v with
      | nil => simp [dot]
      | cons b v =>
          simp only [dot, List.zipWith_cons_cons, List.sum_cons,
            List.length_cons, Nat.succ_min_succ]
          rw [Finset.sum_range_succ']
          simp only [List.getD_cons_succ, List.getD_cons_zero]
          have h := ih v
          simp only [dot] at h
          rw [h]
          ring

lemma dot_self_eq (u : List ℝ) :
    dot u u = ∑ i ∈ Finset.range u.length, u.getD i 0 ^ 2 := by
  rw [dot_eq_sum]
  simp [sq]

lemma dot_self_nonneg (u : List ℝ) : 0 ≤ dot u u := by
  rw [dot_self_eq]
  exact Finset.sum_nonneg fun i _ => sq_nonneg _

lemma dot_le_vnorm_mul_vnorm (u v : List ℝ) : dot u v ≤ vnorm u * vnorm v := by
  rw [dot_eq_sum]
  refine le_trans (Real.sum_mul_le_sqrt_mul_sqrt _ _ _) ?_
  unfold vnorm
  have h1 : ∑ i ∈ Finset.range (min u.length v.length), u.getD i 0 ^ 2 ≤
      dot u u := by
    rw [dot_self_eq]
    exact Finset.sum_le_sum_of_subset_of_nonneg
      (Finset.range_subset.mpr (Nat.min_le_left _ _))
      fun i _ _ => sq_nonneg _
  have h2 : ∑ i ∈ Finset.range (min u.length v.length), v.getD i 0 ^ 2 ≤
      dot v v := by
    rw [dot_self_eq]
    exact Finset.sum_le_sum_of_subset_of_nonneg
      (Finset.range_subset.mpr (Nat.min_le_right _ _))
      fun i _ _ => sq_nonneg _
  exact mul_le_mul (Real.sqrt_le_sqrt h1) (Real.sqrt_le_sqrt h2)
    (Real.sqrt_nonneg _) (Real.sqrt_nonneg _)

lemma cosine_nonneg (u v : List ℝ) : 0 ≤ cosine u v := by
  unfold cosine
  rcases eq_or_ne (vnorm u * vnorm v) 0 with h | h
  · simp [h]
  · have hpos : 0 < vnorm u * vnorm v :=
      lt_of_le_of_ne (mul_nonneg (Real.sqrt_nonneg _) (Real.sqrt_nonneg _))
        (Ne.symm h)
    have hle := div_le_one_of_le₀ (dot_le_vnorm_mul_vnorm u v) hpos.le
    linarith

lemma pairwise_distances_nonneg (l : List (List ℝ)) :
    ∀ x ∈ pairwise_distances l, 0 ≤ x := by
  induction l with
  | nil => intro x hx; simp [pairwise_distances] at hx
  | cons e rest ih =>
      intro x hx
      simp only [pairwise_distances, List.mem_append] at hx
      rcases hx with hx | hx
      · obtain ⟨y, _, rfl⟩ := List.mem_map.mp hx
        exact cosine_nonneg e y
      · exact ih x hx

lemma pairwise_distances_length_aux (l : List (List ℝ)) :
    2 * (pairwise_distances l).length + l.length = l.length * l.length := by
  induction l with
  | nil => simp [pairwise_distances]
  | cons e rest ih =>
      simp only [pairwise_distances, List.length_append, List.length_map,
        List.length_cons]
      have step : 2 * (rest.length + (pairwise_distances rest).length) +
          (rest.length + 1) =
          (2 * (pairwise_distances rest).length + rest.length) +
            (2 * rest.length + 1) := by ring
      rw [step, ih]
      ring

lemma pairwise_distances_length (l : List (List ℝ)) :
    (pairwise_distances l).length = l.length * (l.length - 1) / 2 := by
  have h := pairwise_distances_length_aux l
  have h2 : l.length * (l.length - 1) = 2 * (pairwise_distances l).length := by
    cases hn : l.length with
    | zero =>
        rw [hn] at h
        omega
    | succ m =>
        rw [hn] at h
        rw [Nat.succ_sub_one]
        zify at h ⊢
        linear_combination -h
  rw [h2, Nat.mul_div_cancel_left _ (by norm_num : 0 < 2)]

lemma cosine_getD_mem_pairwise_distances (l : List (List ℝ)) :
    ∀ i j : ℕ, i < j → j < l.length →
      cosine (l.getD i []) (l.getD j []) ∈ pairwise_distances l := by
  induction l with
  | nil => intro i j _ hj; simp at hj
  | cons e rest ih =>
      intro i j hij hj
      simp only [pairwise_distances, List.mem_append]
      cases i with
      | zero =>
          obtain ⟨j', rfl⟩ : ∃ j', j = j' + 1 := ⟨j - 1, by omega⟩
          left
          have hj' : j' < rest.length := by
            simpa [Nat.succ_lt_succ_iff] using hj
          simp only [List.getD_cons_zero, List.getD_cons_succ]
          refine List.mem_map.mpr ⟨rest.getD j' [], ?_, rfl⟩
          rw [List.getD_eq_getElem _ _ hj']
          exact List.getElem_mem hj'
      | succ i' =>
          obtain ⟨j', rfl⟩ : ∃ j', j = j' + 1 := ⟨j - 1, by omega⟩
          right
          simp only [List.getD_cons_succ]
          exact ih i' j' (by omega) (by simpa [Nat.succ_lt_succ_iff] using hj)

lemma npStd_nonneg (l : List ℝ) : 0 ≤ npStd l := Real.sqrt_nonneg _

lemma npMean_nonneg (l : List ℝ) (h : ∀ x ∈ l, 0 ≤ x) : 0 ≤ npMean l :=
  div_nonneg (List.sum_nonneg h) (Nat.cast_nonneg _)

lemma npStd_singleton (x : ℝ) : npStd [x] = 0 := by
  simp [npStd, npMean]

lemma pairwise_distances_pair (u v : List ℝ) :
    pairwise_distances [u, v] = [cosine u v] := by
  simp [pairwise_distances]

lemma measure_consistency_ok (embed : String → List ℝ) (aid pr : String)
    (responses : List String) (now : String) (h2 : 2 ≤ responses.length) :
    measure_consistency embed aid pr responses now = Except.ok
      { agent_id := aid
        prompt := pr
        consistency_score :=
          if npMean (pairwise_distances (responses.map embed)) = 0 then 1.0
          else max 0 (1 - npStd (pairwise_distances (responses.map embed)) /
            npMean (pairwise_distances (responses.map embed)))
        mean_semantic_distance :=
          npMean (pairwise_distances (responses.map embed))
        std_semantic_distance :=
          npStd (pairwise_distances (responses.map embed))
        num_responses := responses.length
        timestamp := now } := by
  have h : ¬ responses.length < 2 := not_lt.mpr h2
  simp [measure_consistency, h]

lemma score_eq_one_of_std_zero (l : List ℝ) (h : npStd l = 0) :
    (if npMean l = 0 then (1.0 : ℝ)
     else max 0 (1 - npStd l / npMean l)) = 1 := by
  by_cases hm : npMean l = 0
  · rw [if_pos hm]
    norm_num
  · rw [if_neg hm, h]
    simp

/-- C3: for every response set of size at least 2, the consistency score
lies in [0, 1]: the floor at 0 keeps it nonnegative even when the standard
deviation exceeds the mean, and it never exceeds 1 because the standard
deviation is nonnegative and the mean distance is nonnegative. -/
theorem consistency_score_unit_interval (embed : String → List ℝ)
    (aid pr : String) (responses : List String) (now : String)
    (h2 : 2 ≤ responses.length) :
    ∃ r, measure_consistency embed aid pr responses now = Except.ok r ∧
      0 ≤ r.consistency_score ∧ r.consistency_score ≤ 1 := by
  refine ⟨_, measure_consistency_ok embed aid pr responses now h2, ?_, ?_⟩ <;>
    dsimp only
  · by_cases hm : npMean (pairwise_distances (responses.map embed)) = 0
    · rw [if_pos hm]
      norm_num
    · rw [if_neg hm]
      exact le_max_left 0 _
  · by_cases hm : npMean (pairwise_distances (responses.map embed)) = 0
    · rw [if_pos hm]
      norm_num
    · rw [if_neg hm]
      refine max_le (by norm_num) ?_
      have hmean : 0 < npMean (pairwise_distances (responses.map embed)) :=
        lt_of_le_of_ne
          (npMean_nonneg _ (pairwise_distances_nonneg _)) (Ne.symm hm)
      have hstd := npStd_nonneg (pairwise_distances (responses.map embed))
      have hdiv : 0 ≤ npStd (pairwise_distances (responses.map embed)) /
          npMean (pairwise_distances (responses.map embed)) :=
        div_nonneg hstd hmean.le
      linarith

/-- Instantiation of `consistency_score_unit_interval` on two concrete
responses under the deterministic stand-in provider. -/
theorem consistency_score_unit_interval_witness :
    ∃ r, measure_consistency unitEmbed "agent" "prompt"
        ["response one", "response two"] "t0" = Except.ok r ∧
      0 ≤ r.consistency_score ∧ r.consistency_score ≤ 1 :=
  consistency_score_unit_interval unitEmbed "agent" "prompt"
    ["response one", "response two"] "t0" (by decide)

/-- C4: whenever the pairwise distances have zero standard deviation the
score is exactly 1: this covers zero mean distance (identical embeddings),
zero standard deviation with positive mean (equal positive distances), and
every response set of exactly 2 responses (a single distance), with no
division fault. -/
theorem consistency_degenerate_std_zero (embed : String → List ℝ)
    (aid pr : String) (responses : List String) (now : String)
    (h2 : 2 ≤ responses.length) :
    ∃ r, measure_consistency embed aid pr responses now = Except.ok r ∧
      (npMean (pairwise_distances (responses.map embed)) = 0 →
        r.consistency_score = 1) ∧
      (npStd (pairwise_distances (responses.map embed)) = 0 →
        r.consistency_score = 1) ∧
      (responses.length = 2 → r.consistency_score = 1) := by
  refine ⟨_, measure_consistency_ok embed aid pr responses now h2,
    ?_, ?_, ?_⟩ <;> dsimp only
  · intro hm
    rw [if_pos hm]
    norm_num
  · intro hs
    exact score_eq_one_of_std_zero _ hs
  · intro hlen
    obtain ⟨x, y, rfl⟩ := List.length_eq_two.mp hlen
    have hpair : pairwise_distances ([x, y].map embed) =
        [cosine (embed x) (embed y)] := by
      simp only [List.map_cons, List.map_nil]
      exact pairwise_distances_pair _ _
    refine score_eq_one_of_std_zero _ ?_
    rw [hpair]
    exact npStd_singleton _

/-- Instantiation of `consistency_degenerate_std_zero` on two concrete
responses under the deterministic stand-in provider. -/
theorem consistency_degenerate_std_zero_witness :
    ∃ r, measure_consistency unitEmbed "agent" "prompt"
        ["first text", "second text"] "t0" = Except.ok r ∧
      (npMean (pairwise_distances
          (["first text", "second text"].map unitEmbed)) = 0 →
        r.consistency_score = 1) ∧
      (npStd (pairwise_distances
          (["first text", "second text"].map unitEmbed)) = 0 →
        r.consistency_score = 1) ∧
      ((["first text", "second text"] : List String).length = 2 →
        r.consistency_score = 1) :=
  consistency_degenerate_std_zero unitEmbed "agent" "prompt"
    ["first text", "second text"] "t0" (by decide)

/-- C5 counterexample: on an empty response list the engine does return the
insufficient-data error, but its message is capitalized "Need at least 2
responses for consistency measurement", not the lowercase message the
claim quotes. -/
theorem consistency_insufficient_message_cex :
    measure_consistency unitEmbed "agent" "prompt" [] "t0" =
      Except.error "Need at least 2 responses for consistency measurement" ∧
    measure_consistency unitEmbed "agent" "prompt" [] "t0" ≠
      Except.error "need at least 2 responses for consistency measurement" := by
  constructor <;> simp [measure_consistency]

/-- C5 (amended): for every responses list of length under 2 the engine
fails with the insufficient-data error, whose message is "Need at least 2
responses for consistency measurement", produces no ConsistencyResult, and
the outcome does not depend on the embedding provider at all — the
provider is never consulted. -/
theorem consistency_insufficient_data (embed : String → List ℝ)
    (aid pr : String) (responses : List String) (now : String)
    (h : responses.length < 2) :
    measure_consistency embed aid pr responses now =
      Except.error "Need at least 2 responses for consistency measurement" ∧
    (∀ r, measure_consistency embed aid pr responses now ≠ Except.ok r) ∧
    (∀ embed2 : String → List ℝ,
      measure_consistency embed aid pr responses now =
        measure_consistency embed2 aid pr responses now) := by
  refine ⟨?_, ?_, ?_⟩ <;> simp [measure_consistency, h]

/-- Instantiation of `consistency_insufficient_data` on a single-response
list. -/
theorem consistency_insufficient_data_witness :
    measure_consistency unitEmbed "agent" "prompt" ["only response"] "t0" =
      Except.error "Need at least 2 responses for consistency measurement" :=
  (consistency_insufficient_data unitEmbed "agent" "prompt"
    ["only response"] "t0" (by decide)).1

/-- C7: for n responses the engine computes n*(n-1)/2 pairwise cosine
distances — one for each unordered pair of embeddings — and the reported
mean and standard deviation are the arithmetic mean and the population
standard deviation (dividing by the number of distances) of exactly those
values. -/
theorem consistency_pairwise_statistics (embed : String → List ℝ)
    (aid pr : String) (responses : List String) (now : String)
    (h2 : 2 ≤ responses.length) :
    (pairwise_distances (responses.map embed)).length =
      responses.length * (responses.length - 1) / 2 ∧
    (∀ i j : ℕ, i < j → j < responses.length →
      cosine ((responses.map embed).getD i [])
          ((responses.map embed).getD j []) ∈
        pairwise_distances (responses.map embed)) ∧
    ∃ r, measure_consistency embed aid pr responses now = Except.ok r ∧
      r.mean_semantic_distance =
        (pairwise_distances (responses.map embed)).sum /
          ((pairwise_distances (responses.map embed)).length : ℝ) ∧
      r.std_semantic_distance =
        Real.sqrt
          (((pairwise_distances (responses.map embed)).map
              (fun x =>
                (x - (pairwise_distances (responses.map embed)).sum /
                  ((pairwise_distances (responses.map embed)).length : ℝ)) ^
                  2)).sum /
            ((pairwise_distances (responses.map embed)).length : ℝ)) := by
  refine ⟨?_, ?_, ?_⟩
  · rw [pairwise_distances_length, List.length_map]
  · intro i j hij hj
    exact cosine_getD_mem_pairwise_distances _ i j hij (by simpa using hj)
  · exact ⟨_, measure_consistency_ok embed aid pr responses now h2, rfl, rfl⟩

/-- Instantiation of `consistency_pairwise_statistics` on two concrete
responses under the deterministic stand-in provider. -/
theorem consistency_pairwise_statistics_witness :
    (pairwise_distances (["alpha", "beta"].map unitEmbed)).length =
      (["alpha", "beta"] : List String).length *
        ((["alpha", "beta"] : List String).length - 1) / 2 ∧
    (∀ i j : ℕ, i < j → j < (["alpha", "beta"] : List String).length →
      cosine ((["alpha", "beta"].map unitEmbed).getD i [])
          ((["alpha", "beta"].map unitEmbed).getD j []) ∈
        pairwise_distances (["alpha", "beta"].map unitEmbed)) ∧
    ∃ r, measure_consistency unitEmbed "agent" "prompt"
        ["alpha", "beta"] "t0" = Except.ok r ∧
      r.mean_semantic_distance =
        (pairwise_distances (["alpha", "beta"].map unitEmbed)).sum /
          ((pairwise_distances (["alpha", "beta"].map unitEmbed)).length : ℝ) ∧
      r.std_semantic_distance =
        Real.sqrt
          (((pairwise_distances (["alpha", "beta"].map unitEmbed)).map
              (fun x =>
                (x - (pairwise_distances
                    (["alpha", "beta"].map unitEmbed)).sum /
                  ((pairwise_distances
                    (["alpha", "beta"].map unitEmbed)).length : ℝ)) ^ 2)).sum /
            ((pairwise_distances
              (["alpha", "beta"].map unitEmbed)).length : ℝ)) :=
  consistency_pairwise_statistics unitEmbed "agent" "prompt"
    ["alpha", "beta"] "t0" (by decide)

/-- C9 (amended): each engine call is a pure function of its inputs and the
clock: with identical arguments (and, for the consistency engine, the same
embedding provider) the results agree on every field except the timestamp,
which records the wall-clock reading of the invocation. -/
theorem engine_calls_pure :
    (∀ a b o : ℚ, ∀ p t1 t2 : String,
      (calculate_coordination_effect a b o p t1).map CoordinationResult.core =
        (calculate_coordination_effect a b o p t2).map
          CoordinationResult.core) ∧
    (∀ embed : String → List ℝ, ∀ aid pr now1 now2 : String,
      ∀ responses : List String,
      (measure_consistency embed aid pr responses now1).map
          ConsistencyResult.core =
        (measure_consistency embed aid pr responses now2).map
          ConsistencyResult.core) := by
  constructor
  · intro a b o p t1 t2
    by_cases h : a * b = 0 <;>
      simp [calculate_coordination_effect, h, Except.map,
        CoordinationResult.core]
  · intro embed aid pr now1 now2 responses
    by_cases h : responses.length < 2 <;>
      simp [measure_consistency, h, Except.map, ConsistencyResult.core]

/-- C8 counterexample: the body carrying exactly the four fields of §6 of
the spec and no agent ids is rejected by request validation (HTTP 422); it
yields neither a 200 result nor a 400 error payload. -/
theorem coordination_route_missing_ids_cex :
    (measure_coordination_endpoint fourFieldBody "t0").status = 422 ∧
    (measure_coordination_endpoint fourFieldBody "t0").status ≠ 200 ∧
    (measure_coordination_endpoint fourFieldBody "t0").status ≠ 400 := by
  refine ⟨rfl, by decide, by decide⟩

/-- C8 (amended): the pydantic model for `POST /measure/coordination` has
six required fields — agent_a_id and agent_b_id in addition to the four the
claim lists. A body with all six present is accepted and yields a 200
CoordinationResult, or a 400 error exactly on zero expected performance. -/
theorem coordination_route_contract (aid bid : String) (ab bb cp : ℚ)
    (ip now : String) :
    (ab * bb ≠ 0 → ∃ r,
      measure_coordination_endpoint
        { agent_a_id := some aid
          agent_b_id := some bid
          agent_a_baseline := some ab
          agent_b_baseline := some bb
          coordinated_performance := some cp
          interaction_pattern := some ip } now = HttpResponse.ok r ∧
      (HttpResponse.ok r : HttpResponse CoordinationResult).status = 200) ∧
    (ab * bb = 0 →
      measure_coordination_endpoint
        { agent_a_id := some aid
          agent_b_id := some bid
          agent_a_baseline := some ab
          agent_b_baseline := some bb
          coordinated_performance := some cp
          interaction_pattern := some ip } now =
        HttpResponse.badRequest
          "Cannot calculate coordination effect with zero baseline" ∧
      (measure_coordination_endpoint
        { agent_a_id := some aid
          agent_b_id := some bid
          agent_a_baseline := some ab
          agent_b_baseline := some bb
          coordinated_performance := some cp
          interaction_pattern := some ip } now).status = 400) := by
  constructor
  · intro h
    obtain ⟨r, hr⟩ : ∃ r, calculate_coordination_effect ab bb cp ip now =
        Except.ok r := ⟨_, calculate_coordination_effect_ok ab bb cp ip now h⟩
    refine ⟨r, ?_, rfl⟩
    simp [measure_coordination_endpoint, validate_coordination_request, hr]
  · intro h
    have he : measure_coordination_endpoint
        { agent_a_id := some aid
          agent_b_id := some bid
          agent_a_baseline := some ab
          agent_b_baseline := some bb
          coordinated_performance := some cp
          interaction_pattern := some ip } now =
        HttpResponse.badRequest
          "Cannot calculate coordination effect with zero baseline" := by
      simp [measure_coordination_endpoint, validate_coordination_request,
        calculate_coordination_effect, h]
    exact ⟨he, by rw [he]; rfl⟩

/-- Instantiation of `coordination_route_contract`: a six-field body with
nonzero expected performance gets a 200, one with a zero baseline gets the
400 zero-baseline error. -/
theorem coordination_route_contract_witness :
    (∃ r, measure_coordination_endpoint
        { agent_a_id := some "agent_a"
          agent_b_id := some "agent_b"
          agent_a_baseline := some 0.85
          agent_b_baseline := some 0.8
          coordinated_performance := some 0.88
          interaction_pattern := some "debate" } "t0" = HttpResponse.ok r ∧
      (HttpResponse.ok r : HttpResponse CoordinationResult).status = 200) ∧
    (measure_coordination_endpoint
        { agent_a_id := some "agent_a"
          agent_b_id := some "agent_b"
          agent_a_baseline := some 0
          agent_b_baseline := some 0.8
          coordinated_performance := some 0.88
          interaction_pattern := some "debate" } "t0" =
      HttpResponse.badRequest
        "Cannot calculate coordination effect with zero baseline" ∧
      (measure_coordination_endpoint
        { agent_a_id := some "agent_a"
          agent_b_id := some "agent_b"
          agent_a_baseline := some 0
          agent_b_baseline := some 0.8
          coordinated_performance := some 0.88
          interaction_pattern := some "debate" } "t0").status = 400) :=
  ⟨(coordination_route_contract "agent_a" "agent_b" 0.85 0.8 0.88
      "debate" "t0").1 (by norm_num),
   (coordination_route_contract "agent_a" "agent_b" 0 0.8 0.88
      "debate" "t0").2 (by norm_num)⟩
